import Mathlib

/-!
Verification development for the mentorboard repository: a shallow embedding
of the board-persistence, template, chat and upload glue code
(src/components/BoardView.tsx, Dashboard.tsx, MentorChatPanel.tsx,
MentorToolbar.tsx, SaveTemplateModal.tsx) together with theorems about the
properties the specification states.

Modelling conventions:
* The tldraw engine and the Supabase backend are opaque collaborators; calls
  into them are recorded as events in a trace (`EngineCall`, mutation lists).
* The engine's full-store snapshot and shape `props` blobs are opaque to the
  repository's code, so they are represented by abstract codes.
* A remote call that can fail is given its success as an explicit boolean
  parameter (`updateOk`, `snapshotLoadOk`, ...); a `fetch` result that the
  code destructures is passed in as an `Option`.
* JavaScript falsy-default expressions `v || d` are modelled by `jsOrNum` /
  `jsOrStr` (`0`, `''` and a missing field all fall back to the default).
-/

namespace MentorBoard

/-- Opaque tldraw full-store snapshot (`editor.store.getSnapshot()`); its
internal structure is never interpreted by the repository, so it is an
abstract code. -/
structure Snapshot where
  sid : Nat
deriving DecidableEq, Repr

/-- Camera position (`editor.getCamera()`). -/
structure Camera where
  x : Int
  y : Int
  z : Int
deriving DecidableEq, Repr

/-- Viewport page bounds (`editor.getViewportPageBounds()`). -/
structure Viewport where
  x : Int
  y : Int
  width : Int
  height : Int
deriving DecidableEq, Repr

/-- Opaque shape `props` blob; never interpreted by the persistence code. -/
abbrev Props := Nat

/-- A live shape on the current page (`editor.getCurrentPageShapes()`). -/
structure PageShape where
  id : Nat
  ty : String
  x : Int
  y : Int
  props : Props
  rotation : Int
deriving DecidableEq, Repr

/-- A legacy per-shape record as stored in the blob's `shapes` array.  The
load path treats every field except `type` as possibly missing
(`shapeData.x || 0` and so on), hence the `Option`s. -/
structure LegacyShape where
  id : Option Nat
  ty : String
  x : Option Int
  y : Option Int
  props : Option Props
  rotation : Option Int
deriving DecidableEq, Repr

/-- The `metadata` object written by the save paths. -/
structure BoardMetadata where
  version : String
  shapeCount : Nat
  saveType : Option String
deriving DecidableEq, Repr

/-- The `board_data` / `template_data` JSON blob.  Each `Option` field models
presence or absence of the corresponding key in the JSON object. -/
structure BoardData where
  storeSnapshot : Option Snapshot
  camera : Option Camera
  viewport : Option Viewport
  shapes : Option (List LegacyShape)
  metadata : Option BoardMetadata
deriving DecidableEq, Repr

/-- `Object.keys(data.board_data).length > 0` is false exactly when no key is
present. -/
def BoardData.isEmptyObject (d : BoardData) : Bool :=
  d.storeSnapshot.isNone && d.camera.isNone && d.viewport.isNone &&
    d.shapes.isNone && d.metadata.isNone

/-- The `{}` blob stored by `Dashboard.createBoard`. -/
def emptyBoardData : BoardData :=
  { storeSnapshot := none, camera := none, viewport := none,
    shapes := none, metadata := none }

/-- JavaScript `String.prototype.trim`: strip whitespace from both ends.
Written structurally over the character list so that concrete inputs
evaluate inside the kernel. -/
def jsTrim (s : String) : String :=
  ⟨((s.data.dropWhile Char.isWhitespace).reverse.dropWhile
      Char.isWhitespace).reverse⟩

/-- The engine state the save paths read from the mounted editor. -/
structure EditorState where
  snapshot : Snapshot
  camera : Camera
  viewport : Viewport
  shapes : List PageShape
deriving DecidableEq, Repr

/-- One call issued against the canvas engine. -/
inductive EngineCall where
  | loadSnapshot (s : Snapshot)
  | setCamera (c : Camera)
  | createShape (ty : String) (x : Int) (y : Int) (props : Props)
      (rotation : Option Int)
  | deleteShapes (ids : List Nat)
deriving DecidableEq, Repr

/-- Whether a call is a shape-creation call. -/
def EngineCall.isCreate : EngineCall → Bool
  | .createShape _ _ _ _ _ => true
  | _ => false

/-! ## Save paths (BoardView.saveBoard / BoardView.manualSave) -/

/-- The legacy record the save paths derive from a live shape
(`editor.getCurrentPageShapes().map(...)`). -/
def pageShapeToRecord (s : PageShape) : LegacyShape :=
  { id := some s.id, ty := s.ty, x := some s.x, y := some s.y,
    props := some s.props, rotation := some s.rotation }

/-- The `boardData` object both save paths build: full snapshot, camera,
viewport, legacy shape list, and metadata with `version: '2.0'` and
`shapeCount` equal to the current page's shape count.  `manualSave`
additionally tags `saveType: 'manual'`. -/
def buildBoardData (e : EditorState) (saveType : Option String) : BoardData :=
  { storeSnapshot := some e.snapshot
    camera := some e.camera
    viewport := some e.viewport
    shapes := some (e.shapes.map pageShapeToRecord)
    metadata := some { version := "2.0", shapeCount := e.shapes.length,
                       saveType := saveType } }

/-- A mutation issued against the `boards` table. -/
inductive BoardWrite where
  | updateBoardRow (boardId : String) (board_data : BoardData)
deriving DecidableEq, Repr

/-- Observable outcome of one run of a save function. -/
structure SaveOutcome where
  writes : List BoardWrite
  threw : Bool
  loggedError : Bool
  lastSavedSet : Bool
deriving DecidableEq, Repr

/-- `BoardView.saveBoard` (the autosave closure): builds the blob from the
editor, issues one `update` on the `boards` row, and catches any error,
logging it; `updateOk` is whether the remote update succeeded. -/
def saveBoard (e : EditorState) (boardId : String) (updateOk : Bool) :
    SaveOutcome :=
  { writes := [.updateBoardRow boardId (buildBoardData e none)]
    threw := false
    loggedError := !updateOk
    lastSavedSet := updateOk }

/-- `BoardView.manualSave`: identical to `saveBoard` except the metadata also
carries `saveType: 'manual'`.  (The `!editor || !boardId` guard is modelled
by having an editor state in hand.) -/
def manualSave (e : EditorState) (boardId : String) (updateOk : Bool) :
    SaveOutcome :=
  { writes := [.updateBoardRow boardId (buildBoardData e (some "manual"))]
    threw := false
    loggedError := !updateOk
    lastSavedSet := updateOk }

/-! ## Load paths (BoardView.handleMount.loadBoardData /
BoardView.handleLoadTemplate) -/

/-- `if (camera) editor.setCamera(camera)`. -/
def cameraCalls : Option Camera → List EngineCall
  | some c => [.setCamera c]
  | none => []

/-- One legacy recreation call:
`editor.createShape({type, x: x||0, y: y||0, props: props||{}, rotation: rotation||0})`.
A stored `0` coordinate and a missing one both yield `0`, so `Option.getD`
matches the JavaScript `||` here. -/
def legacyCreateCall (r : LegacyShape) : EngineCall :=
  .createShape r.ty (r.x.getD 0) (r.y.getD 0) (r.props.getD 0)
    (some (r.rotation.getD 0))

/-- The legacy fallback inside the board load path: clear the current page if
it holds shapes, recreate every stored record, then restore the camera.  It
runs only when `shapes` is present and non-empty. -/
def boardLegacyRestore (bd : BoardData) (currentShapes : List PageShape) :
    List EngineCall :=
  match bd.shapes with
  | some l =>
    if l.length > 0 then
      (if currentShapes.length > 0 then
        [EngineCall.deleteShapes (currentShapes.map PageShape.id)]
      else []) ++ l.map legacyCreateCall ++ cameraCalls bd.camera
    else []
  | none => []

/-- Props codes of the three shapes of the welcome board; their rich-text
content is opaque to the model. -/
def welcomeTextProps : Props := 1

/-- Props code of the `Ideas & Goals` example rectangle. -/
def ideasGoalsProps : Props := 2

/-- Props code of the `Action Items` example rectangle. -/
def actionItemsProps : Props := 3

/-- The three `createShape` calls the board load path issues when the row has
no saved data (`creating welcome board`): a welcome text at (100, 100) and
two example `geo` rectangles at (500, 200) and (750, 200). -/
def welcomeBoardCalls : List EngineCall :=
  [ .createShape "text" 100 100 welcomeTextProps none
  , .createShape "geo" 500 200 ideasGoalsProps none
  , .createShape "geo" 750 200 actionItemsProps none ]

/-- Observable outcome of one run of a load function. -/
structure LoadOutcome where
  calls : List EngineCall
  threw : Bool
  caughtError : Bool
deriving DecidableEq, Repr

/-- `BoardView.handleMount.loadBoardData`.  `fetched = none` models the
`boards` select throwing (the outer catch logs it and issues no engine call);
`some none` models a row whose `board_data` is null; otherwise the blob is
inspected: a present `storeSnapshot` is handed to `editor.store.loadSnapshot`
first (`snapshotLoadOk` tells whether that call succeeded), and only on its
failure, or in its absence, does the legacy per-shape loop run; an empty or
null blob seeds the welcome board instead. -/
def loadBoardData :
    Option (Option BoardData) → List PageShape → Bool → LoadOutcome
  | none, _, _ => { calls := [], threw := false, caughtError := true }
  | some none, _, _ =>
    { calls := welcomeBoardCalls, threw := false, caughtError := false }
  | some (some bd), currentShapes, snapshotLoadOk =>
    if bd.isEmptyObject then
      { calls := welcomeBoardCalls, threw := false, caughtError := false }
    else
      match bd.storeSnapshot with
      | some snap =>
        if snapshotLoadOk then
          { calls := EngineCall.loadSnapshot snap :: cameraCalls bd.camera
            threw := false, caughtError := false }
        else
          { calls := EngineCall.loadSnapshot snap ::
              boardLegacyRestore bd currentShapes
            threw := false, caughtError := false }
      | none =>
        { calls := boardLegacyRestore bd currentShapes
          threw := false, caughtError := false }

/-- The legacy fallback of the template load path: recreate every stored
record then restore the camera (the current page was already cleared before
the snapshot attempt). -/
def templateLegacyRestore (td : BoardData) : List EngineCall :=
  match td.shapes with
  | some l =>
    if l.length > 0 then l.map legacyCreateCall ++ cameraCalls td.camera
    else []
  | none => []

/-- `BoardView.handleLoadTemplate`: clear the current page first, then try
`template_data.storeSnapshot` via `editor.store.loadSnapshot`, falling back
to the legacy per-shape loop only if the snapshot is absent or its load
throws. -/
def handleLoadTemplate (td : BoardData) (currentShapes : List PageShape)
    (snapshotLoadOk : Bool) : LoadOutcome :=
  let del := if currentShapes.length > 0 then
      [EngineCall.deleteShapes (currentShapes.map PageShape.id)]
    else []
  match td.storeSnapshot with
  | some snap =>
    if snapshotLoadOk then
      { calls := del ++ EngineCall.loadSnapshot snap :: cameraCalls td.camera
        threw := false, caughtError := false }
    else
      { calls := del ++ EngineCall.loadSnapshot snap ::
          templateLegacyRestore td
        threw := false, caughtError := false }
  | none =>
    { calls := del ++ templateLegacyRestore td
      threw := false, caughtError := false }

/-! ## Dashboard.createBoard and the board-name load -/

/-- A `boards` row as created and read by the repository.  `board_data` is
`none` when the column is null. -/
structure BoardRow where
  id : String
  name : String
  description : Option String
  board_data : Option BoardData
  user_id : String
  is_public : Bool
deriving DecidableEq, Repr

/-- `Dashboard.createBoard`: refuses a blank name or a missing user,
otherwise inserts a row with the trimmed name, the trimmed description or
null, an empty `board_data` object, and `is_public: false`. -/
def createBoard (newBoardName newBoardDescription : String)
    (user : Option String) (newId : String) : Option BoardRow :=
  if jsTrim newBoardName = "" then none
  else
    match user with
    | none => none
    | some uid =>
      some { id := newId
             name := jsTrim newBoardName
             description :=
               if jsTrim newBoardDescription = "" then none
               else some (jsTrim newBoardDescription)
             board_data := some emptyBoardData
             user_id := uid
             is_public := false }

/-- The metadata effect of the first load in `BoardView`
(`setBoardName(data.name)`). -/
def loadBoardName (row : BoardRow) : String :=
  row.name

/-! ## Helper lemmas about traces -/

theorem cameraCalls_no_create (c : Option Camera) :
    ∀ x ∈ cameraCalls c, x.isCreate = false := by
  cases c <;> simp [cameraCalls, EngineCall.isCreate]

theorem isEmptyObject_eq_false_of_snapshot {bd : BoardData} {s : Snapshot}
    (h : bd.storeSnapshot = some s) : bd.isEmptyObject = false := by
  simp [BoardData.isEmptyObject, h]

/-! ## Chat persistence (MentorChatPanel.loadChatHistory /
MentorChatPanel.saveChatMessage) -/

/-- An in-memory chat message of the panel. -/
structure Message where
  id : String
  role : String
  content : String
deriving DecidableEq, Repr

/-- A `board_chats` row. -/
structure ChatRow where
  id : String
  board_id : String
  user_id : String
  message_type : String
  content : String
  created_at : Nat
deriving DecidableEq, Repr

/-- The mutations the backend exposes on the `board_chats` table.  The
repository only ever emits the insert form; the other constructors exist so
that append-onlyness is a statement, not a tautology. -/
inductive ChatMutation where
  | insertChat (board_id : String) (user_id : String)
      (message_type : String) (content : String)
  | updateChat (id : String) (content : String)
  | deleteChat (id : String)
deriving DecidableEq, Repr

/-- Effect of a mutation on the stored table; inserted rows are appended with
a backend-assigned id and creation time. -/
def applyChatMutation (table : List ChatRow) (now : Nat) (newId : String) :
    ChatMutation → List ChatRow
  | .insertChat b u t c =>
    table ++ [{ id := newId, board_id := b, user_id := u, message_type := t,
                content := c, created_at := now }]
  | .updateChat i c =>
    table.map fun r => if r.id = i then { r with content := c } else r
  | .deleteChat i => table.filter fun r => r.id ≠ i

/-- Row order used by the chat history query
(`.order('created_at', { ascending: true })`). -/
def chatOrder (a b : ChatRow) : Prop :=
  a.created_at ≤ b.created_at

instance : DecidableRel chatOrder := fun a b =>
  Nat.decLe a.created_at b.created_at

instance : IsTotal ChatRow chatOrder :=
  ⟨fun a b => Nat.le_total a.created_at b.created_at⟩

instance : IsTrans ChatRow chatOrder :=
  ⟨fun _ _ _ => Nat.le_trans⟩

/-- The `board_chats` select issued by `loadChatHistory`: filter by board and
user, ordered ascending by `created_at`. -/
def loadChatHistoryQuery (table : List ChatRow) (boardId userId : String) :
    List ChatRow :=
  List.insertionSort chatOrder
    (table.filter fun r => r.board_id == boardId && r.user_id == userId)

/-- The synthetic welcome message shown when a board has no chat history or
when loading the history fails. -/
def welcomeMessage : Message :=
  { id := "welcome"
    role := "assistant"
    content := "Hello! I'm your Mentor AI assistant. I can help you with mentoring strategies, provide feedback, and even generate content directly on your board. How can I assist you today?" }

/-- Message built from a fetched row. -/
def chatRowToMessage (r : ChatRow) : Message :=
  { id := r.id, role := r.message_type, content := r.content }

/-- `MentorChatPanel.loadChatHistory`, given the fetch result of
`loadChatHistoryQuery` (`none` models the select throwing): the welcome
message is substituted on error or when the history is empty. -/
def loadChatHistory (fetched : Option (List ChatRow)) : List Message :=
  match fetched with
  | none => [welcomeMessage]
  | some rows =>
    if rows.length = 0 then [welcomeMessage] else rows.map chatRowToMessage

/-- `MentorChatPanel.saveChatMessage`: a no-op without a user or board id,
and for the synthetic welcome message; otherwise one insert into
`board_chats`. -/
def saveChatMessage (user : Option String) (boardId : String)
    (msg : Message) : List ChatMutation :=
  match user with
  | none => []
  | some uid =>
    if boardId = "" then []
    else if msg.id = "welcome" then []
    else [ChatMutation.insertChat boardId uid msg.role msg.content]

/-! ## Image upload (MentorChatPanel.handleFileUpload) -/

/-- A browser `File` as the upload path reads it. -/
structure UploadedFile where
  name : String
  mime : String
  size : Nat
deriving DecidableEq, Repr

/-- A `board_images` row as inserted by the upload path (pixel dimensions
come from `getImageDimensions`). -/
structure ImageRow where
  board_id : String
  user_id : String
  filename : String
  storage_path : String
  storage_url : String
  content_type : String
  file_size : Nat
  width : Nat
  height : Nat
deriving DecidableEq, Repr

/-- JavaScript `String.prototype.split('.')` over the character list,
written structurally so that concrete inputs evaluate inside the kernel. -/
def splitDot : List Char → List (List Char)
  | [] => [[]]
  | ch :: rest =>
    match splitDot rest with
    | [] => [[]]
    | cur :: parts =>
      if ch = '.' then [] :: cur :: parts else (ch :: cur) :: parts

/-- `file.name.split('.').pop()`: the part of the file name after its last
dot (the whole name when it has none). -/
def fileExtOf (name : String) : String :=
  ⟨(splitDot name.data).getLastD []⟩

/-- One iteration of `handleFileUpload`'s upload loop: builds the storage
path `board-images/<boardId>/<timestamp>-<random>.<ext>`, uploads there,
obtains the public URL for that path (`getPublicUrl` models the storage
client's URL builder), and returns the path together with the row inserted
into `board_images`. -/
def uploadOneImage (boardId userId : String) (now : Nat) (rand : String)
    (getPublicUrl : String → String) (dims : Nat × Nat)
    (file : UploadedFile) : String × ImageRow :=
  let fileExt := fileExtOf file.name
  let fileName := boardId ++ "/" ++ toString now ++ "-" ++ rand ++ "." ++
    fileExt
  let filePath := "board-images/" ++ fileName
  (filePath,
   { board_id := boardId
     user_id := userId
     filename := file.name
     storage_path := filePath
     storage_url := getPublicUrl filePath
     content_type := file.mime
     file_size := file.size
     width := dims.1
     height := dims.2 })

/-- `handleFileUpload` keeps only files whose MIME type starts with
`image/` before uploading each of them. -/
def imageFilesOf (files : List UploadedFile) : List UploadedFile :=
  files.filter fun f => f.mime.startsWith "image/"

/-! ## AI board generation (MentorChatPanel.createBoardShape /
MentorChatPanel.updateEntireBoard) -/

/-- A shape description parsed out of the model's JSON payload; every field
except `type` may be absent.  `len` stands for the JSON field `length` of
arrow shapes. -/
structure AiShape where
  ty : String
  content : Option String
  x : Option Int
  y : Option Int
  width : Option Int
  height : Option Int
  color : Option String
  size : Option String
  fill : Option String
  geo : Option String
  text : Option String
  len : Option Int
deriving DecidableEq, Repr

/-- JavaScript `v || d` on a numeric field: `0`, like a missing field,
falls back to the default. -/
def jsOrNum (v : Option Int) (d : Int) : Int :=
  match v with
  | some n => if n = 0 then d else n
  | none => d

/-- JavaScript `v || d` on a string field: the empty string, like a missing
field, falls back to the default. -/
def jsOrStr (v : Option String) (d : String) : String :=
  match v with
  | some s => if s = "" then d else s
  | none => d

/-- Props code of shapes created from AI payloads; their props objects
(rich text, colors, sizes) are opaque to the model. -/
def aiProps : Props := 4

/-- The `switch (shapeData.type)` shared by both AI creation paths: `text`,
`note` and `arrow` keep their type, `rectangle` and `geo` become `geo`, and
any unrecognised type defaults to a text shape. -/
def aiShapeTypeCall (x y : Int) (s : AiShape) : EngineCall :=
  if s.ty = "text" then .createShape "text" x y aiProps none
  else if s.ty = "note" then .createShape "note" x y aiProps none
  else if s.ty = "rectangle" ∨ s.ty = "geo" then
    .createShape "geo" x y aiProps none
  else if s.ty = "arrow" then .createShape "arrow" x y aiProps none
  else .createShape "text" x y aiProps none

/-- `MentorChatPanel.createBoardShape`: no-op without an editor or with an
empty list, otherwise one creation call per described shape, with default
positions spread around the viewport centre in a 3-wide grid.  Coordinates
are modelled over `Int` (with `/` the integer halving of the centre
computation). -/
def createBoardShape (editorPresent : Bool) (vp : Viewport)
    (shapes : List AiShape) : List EngineCall :=
  if !editorPresent || shapes.length == 0 then []
  else
    let centerX := vp.x + vp.width / 2
    let centerY := vp.y + vp.height / 2
    shapes.enum.map fun p =>
      let offsetX : Int := ((p.1 % 3 : Nat) : Int) * 250
      let offsetY : Int := ((p.1 / 3 : Nat) : Int) * 150
      let x := jsOrNum p.2.x (centerX + offsetX - 250)
      let y := jsOrNum p.2.y (centerY + offsetY - 75)
      aiShapeTypeCall x y p.2

/-- `MentorChatPanel.updateEntireBoard`: no-op without an editor, otherwise
delete every existing shape, then one creation call per described shape with
diagonal default positions `100 + 20 * index`. -/
def updateEntireBoard (editorPresent : Bool)
    (currentShapes : List PageShape) (boardShapes : List AiShape) :
    List EngineCall :=
  if !editorPresent then []
  else
    (if currentShapes.length > 0 then
      [EngineCall.deleteShapes (currentShapes.map PageShape.id)]
    else []) ++
    boardShapes.enum.map fun p =>
      let x := jsOrNum p.2.x (100 + (↑p.1 : Int) * 20)
      let y := jsOrNum p.2.y (100 + (↑p.1 : Int) * 20)
      aiShapeTypeCall x y p.2

/-! ## Parsing the model reply (MentorChatPanel.processScript /
MentorChatPanel.sendMessage) -/

/-- The constrained JSON object looked for in the reply. -/
structure BoardPayload where
  action : String
  shapes : Option (List AiShape)
  boardShapes : Option (List AiShape)
  explanation : Option String
deriving DecidableEq, Repr

/-- Outcome of matching the reply against the fenced-JSON regular expression
and `JSON.parse`: no fenced block at all, a block whose parse throws (with
the thrown message), or a parsed payload. -/
inductive ParseOutcome where
  | noBlock
  | malformed (message : String)
  | payload (p : BoardPayload)
deriving DecidableEq, Repr

/-- Whether a constrained JSON payload was parsed out of the reply. -/
def ParseOutcome.isPayload : ParseOutcome → Bool
  | .payload _ => true
  | _ => false

/-- Observable outcome of one chat or script turn: chat-transcript messages
appended (their contents, in order), contents handed to `saveChatMessage`,
engine calls issued, and whether an exception escaped to the caller. -/
structure ChatTurnOutcome where
  displayed : List String
  saved : List String
  calls : List EngineCall
  threw : Bool
deriving DecidableEq, Repr

/-- `MentorChatPanel.processScript`: guarded on a non-blank script; on an
API failure the catch displays an error line; otherwise the reply is matched
for a fenced JSON block.  Absence of a block and a failing `JSON.parse` both
land in the parse catch, which displays `Error creating visualization: ...`
(never the raw reply); a parsed `create_shapes` payload is replayed through
`createBoardShape` and acknowledged; any other payload does nothing.  Script
turns are never persisted via `saveChatMessage`. -/
def processScript (scriptContent : String) (apiOk : Bool)
    (aiResponse : String) (outcome : ParseOutcome) (editorPresent : Bool)
    (vp : Viewport) : ChatTurnOutcome :=
  if jsTrim scriptContent = "" then
    { displayed := [], saved := [], calls := [], threw := false }
  else if !apiOk then
    { displayed := ["Error: API request failed"], saved := [], calls := []
      threw := false }
  else
    match outcome with
    | .noBlock =>
      { displayed :=
          ["Error creating visualization: No valid visualization JSON found in response"]
        saved := [], calls := [], threw := false }
    | .malformed m =>
      { displayed := ["Error creating visualization: " ++ m]
        saved := [], calls := [], threw := false }
    | .payload p =>
      if p.action = "create_shapes" then
        match p.shapes with
        | some l =>
          { displayed := ["✅ Board visualization created! " ++
              jsOrStr p.explanation
                "Visual representation has been generated from your script and images."]
            saved := [], calls := createBoardShape editorPresent vp l
            threw := false }
        | none => { displayed := [], saved := [], calls := [], threw := false }
      else { displayed := [], saved := [], calls := [], threw := false }

/-- `MentorChatPanel.sendMessage`: guarded on a non-blank input; the user
message is appended and saved first.  On an API failure the catch appends and
saves an error line.  Otherwise a parsed `update_board` payload with a
`board.shapes` field is replayed through `updateEntireBoard` (whose rethrown
failure, `updateOk = false`, only changes the acknowledgement text) and a
parsed `create_shapes` payload through `createBoardShape`; in every other
case — no fenced block, a failing `JSON.parse`, or a payload in neither
format — the raw reply itself is appended and saved, and no engine call is
issued. -/
def sendMessage (inputMessage : String) (apiOk : Bool) (aiResponse : String)
    (outcome : ParseOutcome) (editorPresent : Bool)
    (currentShapes : List PageShape) (vp : Viewport) (updateOk : Bool) :
    ChatTurnOutcome :=
  if jsTrim inputMessage = "" then
    { displayed := [], saved := [], calls := [], threw := false }
  else if !apiOk then
    { displayed := [inputMessage, "Error: API request failed"]
      saved := [inputMessage, "Error: API request failed"]
      calls := [], threw := false }
  else
    let processed : Option (List EngineCall × String) :=
      match outcome with
      | .payload p =>
        if p.action = "update_board" then
          match p.boardShapes with
          | some bs =>
            some (updateEntireBoard editorPresent currentShapes bs,
              if updateOk then
                "✅ Updated the entire board! " ++
                  jsOrStr p.explanation
                    "Board has been refreshed with new content."
              else "❌ Failed to update board: Unknown error")
          | none => none
        else if p.action = "create_shapes" then
          match p.shapes with
          | some l =>
            some (createBoardShape editorPresent vp l,
              "✅ Created content on the board! " ++
                jsOrStr p.explanation "Shapes have been added to your board.")
          | none => none
        else none
      | _ => none
    match processed with
    | some (calls, text) =>
      if text ≠ aiResponse then
        { displayed := [inputMessage, text], saved := [inputMessage, text]
          calls := calls, threw := false }
      else
        { displayed := [inputMessage], saved := [inputMessage]
          calls := calls, threw := false }
    | none =>
      { displayed := [inputMessage, aiResponse]
        saved := [inputMessage, aiResponse]
        calls := [], threw := false }

/-! ## Template save modal (SaveTemplateModal.handleSave) -/

/-- The modal's state fields. -/
structure TemplateModalState where
  name : String
  description : String
  category : String
  isPublic : Bool
  saving : Bool
  error : String
deriving DecidableEq, Repr

/-- A row inserted into the `templates` table. -/
structure TemplateInsert where
  name : String
  description : Option String
  category : String
  template_data : BoardData
  is_public : Bool
  user_id : String
deriving DecidableEq, Repr

/-- Observable outcome of one run of the modal's save handler. -/
structure TemplateSaveOutcome where
  state : TemplateModalState
  inserts : List TemplateInsert
  closed : Bool
deriving DecidableEq, Repr

/-- `SaveTemplateModal.handleSave`: refuse a missing editor or blank trimmed
name, then refuse an empty current page, then require a signed-in user;
otherwise insert the template (same versioned blob as the board save, with
`createdAt` metadata) and close the modal on success. -/
def templateModalHandleSave (st : TemplateModalState)
    (editor : Option EditorState) (user : Option String) (insertOk : Bool) :
    TemplateSaveOutcome :=
  match editor with
  | none =>
    { state := { st with error := "Template name is required" }
      inserts := [], closed := false }
  | some e =>
    if jsTrim st.name = "" then
      { state := { st with error := "Template name is required" }
        inserts := [], closed := false }
    else
      let st1 := { st with saving := true, error := "" }
      if e.shapes.length = 0 then
        let st2 := { st1 with
                     saving := false,
                     error := "Cannot save empty board as template" }
        { state := st2, inserts := [], closed := false }
      else
        match user with
        | none =>
          let st2 := { st1 with
                       saving := false,
                       error := "You must be logged in to save templates" }
          { state := st2, inserts := [], closed := false }
        | some uid =>
          let row : TemplateInsert :=
            { name := jsTrim st.name
              description :=
                if jsTrim st.description = "" then none
                else some (jsTrim st.description)
              category := st.category
              template_data := buildBoardData e none
              is_public := st.isPublic
              user_id := uid }
          if insertOk then
            { state := { st1 with saving := false }
              inserts := [row], closed := true }
          else
            let st2 := { st1 with
                         saving := false,
                         error := "Failed to save template. Please try again." }
            { state := st2, inserts := [row], closed := false }

/-! ## Template usage tracking (TemplatesPanel.handleLoadTemplate in
MentorToolbar.tsx) -/

/-- One event of the panel's load-template handler. -/
inductive PanelEvent where
  | insertTemplateUsage (templateId : String) (userId : String)
  | rpcIncrementUsage (templateId : String)
  | loadTemplateIntoCanvas (templateId : String)
  | collapsePanel
  | logError
deriving DecidableEq, Repr

/-- `TemplatesPanel.handleLoadTemplate`: for an authenticated user, insert a
`template_usage` row and then call the `increment_template_usage` remote
procedure, inside the same try block that afterwards hands the template to
`onLoadTemplate` and collapses the panel; a thrown failure of either
tracking call is caught and logged — which also skips everything after the
failing call. -/
def panelHandleLoadTemplate (templateId : String) (user : Option String)
    (insertThrows rpcThrows : Bool) : List PanelEvent :=
  match user with
  | none => [.loadTemplateIntoCanvas templateId, .collapsePanel]
  | some uid =>
    if insertThrows then
      [.insertTemplateUsage templateId uid, .logError]
    else if rpcThrows then
      [.insertTemplateUsage templateId uid, .rpcIncrementUsage templateId,
       .logError]
    else
      [.insertTemplateUsage templateId uid, .rpcIncrementUsage templateId,
       .loadTemplateIntoCanvas templateId, .collapsePanel]

/-- `increment_template_usage` (SQL remote procedure): adds one to the
usage counter of the addressed template row. -/
def incrementTemplateUsage (usageCounts : String → Nat)
    (templateId : String) : String → Nat :=
  fun t => if t = templateId then usageCounts t + 1 else usageCounts t

/-! ## Helper lemmas -/

theorem no_create_append {xs ys : List EngineCall}
    (hx : ∀ c ∈ xs, c.isCreate = false) (hy : ∀ c ∈ ys, c.isCreate = false) :
    ∀ c ∈ xs ++ ys, c.isCreate = false := by
  intro c hc
  rcases List.mem_append.mp hc with h | h
  exacts [hx c h, hy c h]

theorem deleteCalls_no_create (cur : List PageShape) :
    ∀ c ∈ (if cur.length > 0 then
        [EngineCall.deleteShapes (cur.map PageShape.id)] else []),
      c.isCreate = false := by
  split <;> simp [EngineCall.isCreate]

/-! ## Theorems for the claims -/

/-- C1: on every board or template load whose stored blob carries both a
full store snapshot and a non-empty legacy per-shape list, the load path
hands the snapshot to the engine's snapshot-loading call and issues no
legacy recreation (no shape-creation call at all); conversely, whatever the
snapshot-load result, a shape-creation call can only have been issued when
the snapshot load threw. -/
theorem snapshot_preferred_over_legacy (bd : BoardData)
    (cur : List PageShape) (snap : Snapshot) (l : List LegacyShape)
    (ok : Bool) (hs : bd.storeSnapshot = some snap)
    (hl : bd.shapes = some l) (hne : l ≠ []) :
    ((loadBoardData (some (some bd)) cur true).calls
        = EngineCall.loadSnapshot snap :: cameraCalls bd.camera
      ∧ (handleLoadTemplate bd cur true).calls
        = (if cur.length > 0 then
            [EngineCall.deleteShapes (cur.map PageShape.id)] else [])
          ++ EngineCall.loadSnapshot snap :: cameraCalls bd.camera
      ∧ (∀ c ∈ (loadBoardData (some (some bd)) cur true).calls,
          c.isCreate = false)
      ∧ (∀ c ∈ (handleLoadTemplate bd cur true).calls, c.isCreate = false))
    ∧ ((∃ c ∈ (loadBoardData (some (some bd)) cur ok).calls,
          c.isCreate = true) → ok = false)
    ∧ ((∃ c ∈ (handleLoadTemplate bd cur ok).calls,
          c.isCreate = true) → ok = false) := by
  have hemp : bd.isEmptyObject = false := isEmptyObject_eq_false_of_snapshot hs
  have hboard :
      (loadBoardData (some (some bd)) cur true).calls
        = EngineCall.loadSnapshot snap :: cameraCalls bd.camera := by
    simp [loadBoardData, hemp, hs]
  have htpl :
      (handleLoadTemplate bd cur true).calls
        = (if cur.length > 0 then
            [EngineCall.deleteShapes (cur.map PageShape.id)] else [])
          ++ EngineCall.loadSnapshot snap :: cameraCalls bd.camera := by
    simp [handleLoadTemplate, hs]
  have hboardNoCreate :
      ∀ c ∈ (loadBoardData (some (some bd)) cur true).calls,
        c.isCreate = false := by
    rw [hboard]
    intro c hc
    rcases List.mem_cons.mp hc with h | h
    · simp [h, EngineCall.isCreate]
    · exact cameraCalls_no_create bd.camera c h
  have htplNoCreate :
      ∀ c ∈ (handleLoadTemplate bd cur true).calls, c.isCreate = false := by
    rw [htpl]
    refine no_create_append (deleteCalls_no_create cur) ?_
    intro c hc
    rcases List.mem_cons.mp hc with h | h
    · simp [h, EngineCall.isCreate]
    · exact cameraCalls_no_create bd.camera c h
  refine ⟨⟨hboard, htpl, hboardNoCreate, htplNoCreate⟩, ?_, ?_⟩
  · rintro ⟨c, hc, hcr⟩
    cases ok with
    | false => rfl
    | true => exact absurd (hboardNoCreate c hc) (by simp [hcr])
  · rintro ⟨c, hc, hcr⟩
    cases ok with
    | false => rfl
    | true => exact absurd (htplNoCreate c hc) (by simp [hcr])

/-- Concrete blob with both a snapshot and a legacy shape list, for the C1
witness. -/
def c1Blob : BoardData :=
  { storeSnapshot := some ⟨7⟩
    camera := some ⟨1, 2, 3⟩
    viewport := none
    shapes := some [⟨some 1, "geo", some 10, none, none, none⟩]
    metadata := some { version := "2.0", shapeCount := 1, saveType := none } }

/-- Witness for C1: the theorem applied to a concrete blob that carries both
formats. -/
theorem snapshot_preferred_over_legacy_witness :
    (c1Blob.storeSnapshot = some ⟨7⟩
      ∧ c1Blob.shapes = some [⟨some 1, "geo", some 10, none, none, none⟩]
      ∧ ([⟨some 1, "geo", some 10, none, none, none⟩] : List LegacyShape) ≠ [])
    ∧ (loadBoardData (some (some c1Blob)) [] true).calls
        = EngineCall.loadSnapshot ⟨7⟩ :: cameraCalls c1Blob.camera
    ∧ (∀ c ∈ (loadBoardData (some (some c1Blob)) [] true).calls,
        c.isCreate = false) :=
  ⟨⟨rfl, rfl, by decide⟩,
    (snapshot_preferred_over_legacy c1Blob [] ⟨7⟩ _ true rfl rfl
      (by decide)).1.1,
    (snapshot_preferred_over_legacy c1Blob [] ⟨7⟩ _ true rfl rfl
      (by decide)).1.2.2.1⟩

/-- C2: every autosave and manual save issues exactly one update on the
board row, whose blob carries the full store snapshot, the camera position,
the version tag `2.0`, and a `shapeCount` equal to the number of shapes on
the current page. -/
theorem save_blob_versioned_with_shape_count (e : EditorState)
    (boardId : String) (ok : Bool) :
    (∃ p, (saveBoard e boardId ok).writes
        = [BoardWrite.updateBoardRow boardId p]
      ∧ p.storeSnapshot = some e.snapshot
      ∧ p.camera = some e.camera
      ∧ p.metadata = some ⟨"2.0", e.shapes.length, none⟩)
    ∧ (∃ p, (manualSave e boardId ok).writes
        = [BoardWrite.updateBoardRow boardId p]
      ∧ p.storeSnapshot = some e.snapshot
      ∧ p.camera = some e.camera
      ∧ p.metadata = some ⟨"2.0", e.shapes.length, some "manual"⟩) :=
  ⟨⟨buildBoardData e none, rfl, rfl, rfl, rfl⟩,
   ⟨buildBoardData e (some "manual"), rfl, rfl, rfl, rfl⟩⟩

/-- C5: a failed remote board write (autosave or manual) is swallowed — no
rethrow, exactly one write attempt whose payload is the same blob a
successful save would write (it is computed from the editor alone, so no
merge with or conditioning on the stored row occurs) — and a failed remote
board read is swallowed with no engine call issued; both failures are
logged. -/
theorem remote_errors_logged_and_swallowed (e : EditorState)
    (boardId : String) (cur : List PageShape) (ok : Bool) :
    ((saveBoard e boardId false).threw = false
      ∧ (saveBoard e boardId false).loggedError = true
      ∧ (saveBoard e boardId false).writes
          = [BoardWrite.updateBoardRow boardId (buildBoardData e none)]
      ∧ (saveBoard e boardId false).writes = (saveBoard e boardId true).writes)
    ∧ ((manualSave e boardId false).threw = false
      ∧ (manualSave e boardId false).loggedError = true
      ∧ (manualSave e boardId false).writes
          = [BoardWrite.updateBoardRow boardId
              (buildBoardData e (some "manual"))]
      ∧ (manualSave e boardId false).writes
          = (manualSave e boardId true).writes)
    ∧ ((loadBoardData none cur ok).threw = false
      ∧ (loadBoardData none cur ok).caughtError = true
      ∧ (loadBoardData none cur ok).calls = []) :=
  ⟨⟨rfl, rfl, rfl, rfl⟩, ⟨rfl, rfl, rfl, rfl⟩, ⟨rfl, rfl, rfl⟩⟩

/-- C3 counterexample: the board created by `Dashboard.createBoard` stores
the empty blob, yet opening it does issue shape-creation calls — the load
path seeds the welcome board — so the opened canvas is not free of shapes
the user did not create. -/
theorem create_then_open_not_empty_cex :
    ((createBoard "My Board" "" (some "user-1") "board-1").bind
        BoardRow.board_data = some emptyBoardData)
    ∧ ¬ (∀ c ∈ (loadBoardData (some (some emptyBoardData)) [] true).calls,
          c.isCreate = false) := by
  constructor
  · decide
  · decide

/-- C3 amended: creating a board and immediately opening it round-trips the
trimmed name, and the stored blob is the empty object so neither the
snapshot-restore nor the legacy-restore path runs; but instead of an empty
canvas, the open path seeds exactly the three welcome shapes (a welcome
text and two example rectangles). -/
theorem create_then_open_amended (nm desc uid newId : String)
    (hnm : jsTrim nm ≠ "") :
    ∃ r, createBoard nm desc (some uid) newId = some r
      ∧ loadBoardName r = jsTrim nm
      ∧ r.board_data = some emptyBoardData
      ∧ (loadBoardData (some r.board_data) [] true).calls
          = welcomeBoardCalls := by
  refine ⟨{ id := newId, name := jsTrim nm,
            description := if jsTrim desc = "" then none
              else some (jsTrim desc),
            board_data := some emptyBoardData, user_id := uid,
            is_public := false }, ?_, rfl, rfl, ?_⟩
  · simp [createBoard, hnm]
  · rfl

/-- Witness for the amended C3. -/
theorem create_then_open_amended_witness :
    jsTrim " My Board " ≠ ""
    ∧ ∃ r, createBoard " My Board " "" (some "user-1") "board-1" = some r
        ∧ loadBoardName r = jsTrim " My Board "
        ∧ r.board_data = some emptyBoardData
        ∧ (loadBoardData (some r.board_data) [] true).calls
            = welcomeBoardCalls :=
  ⟨by decide,
   create_then_open_amended " My Board " "" "user-1" "board-1" (by decide)⟩

/-- C4 counterexample: in script mode (`processScript`) a reply without a
parseable payload is not displayed verbatim — the chat message shown is the
derived parse-failure line instead. -/
theorem unparseable_reply_script_mode_cex :
    ¬ ("Here is some advice" ∈
        (processScript "draw my plan" true "Here is some advice"
          ParseOutcome.noBlock true ⟨0, 0, 0, 0⟩).displayed) := by
  decide

/-- C4 amended: for every model reply without a parseable constrained JSON
payload, neither operation throws and neither issues a shape-creation call;
in chat mode (`sendMessage`) the reply is displayed verbatim, while in
script mode (`processScript`) the single message displayed is the derived
`Error creating visualization:` line rather than the verbatim reply. -/
theorem unparseable_reply_amended (inputMessage scriptContent : String)
    (aiResponse : String) (outcome : ParseOutcome) (editorPresent : Bool)
    (cur : List PageShape) (vp : Viewport) (updateOk : Bool)
    (hin : jsTrim inputMessage ≠ "") (hscript : jsTrim scriptContent ≠ "")
    (hout : outcome.isPayload = false) :
    (aiResponse ∈ (sendMessage inputMessage true aiResponse outcome
        editorPresent cur vp updateOk).displayed
      ∧ (sendMessage inputMessage true aiResponse outcome editorPresent cur
          vp updateOk).calls = []
      ∧ (sendMessage inputMessage true aiResponse outcome editorPresent cur
          vp updateOk).threw = false)
    ∧ ((processScript scriptContent true aiResponse outcome editorPresent
          vp).calls = []
      ∧ (processScript scriptContent true aiResponse outcome editorPresent
          vp).threw = false
      ∧ ∃ tail, (processScript scriptContent true aiResponse outcome
          editorPresent vp).displayed
            = ["Error creating visualization: " ++ tail]) := by
  cases outcome with
  | payload p => simp [ParseOutcome.isPayload] at hout
  | noBlock =>
    refine ⟨⟨?_, ?_, ?_⟩, ?_, ?_,
      ⟨"No valid visualization JSON found in response", ?_⟩⟩ <;>
      simp [sendMessage, processScript, hin, hscript]
  | malformed m =>
    refine ⟨⟨?_, ?_, ?_⟩, ?_, ?_, ⟨m, ?_⟩⟩ <;>
      simp [sendMessage, processScript, hin, hscript]

/-- Witness for the amended C4. -/
theorem unparseable_reply_amended_witness :
    (jsTrim "hi" ≠ "" ∧ jsTrim "my script" ≠ ""
      ∧ ParseOutcome.noBlock.isPayload = false)
    ∧ "free-form advice" ∈ (sendMessage "hi" true "free-form advice"
        ParseOutcome.noBlock true [] ⟨0, 0, 0, 0⟩ true).displayed
    ∧ (processScript "my script" true "free-form advice"
        ParseOutcome.noBlock true ⟨0, 0, 0, 0⟩).calls = [] :=
  ⟨⟨by decide, by decide, rfl⟩,
   (unparseable_reply_amended "hi" "my script" "free-form advice"
      ParseOutcome.noBlock true [] ⟨0, 0, 0, 0⟩ true (by decide) (by decide)
      rfl).1.1,
   (unparseable_reply_amended "hi" "my script" "free-form advice"
      ParseOutcome.noBlock true [] ⟨0, 0, 0, 0⟩ true (by decide) (by decide)
      rfl).2.1⟩

/-- C6 counterexample: when the `template_usage` insert throws, the catch
logs the failure but the handler never reaches `onLoadTemplate`, so the
template is not loaded into the canvas — tracking failure does prevent the
load. -/
theorem template_tracking_failure_cex :
    panelHandleLoadTemplate "tpl-1" (some "user-1") true false
      = [PanelEvent.insertTemplateUsage "tpl-1" "user-1",
         PanelEvent.logError]
    ∧ PanelEvent.loadTemplateIntoCanvas "tpl-1" ∉
        panelHandleLoadTemplate "tpl-1" (some "user-1") true false := by
  exact ⟨rfl, by decide⟩

/-- C6 amended: for an authenticated user the usage-log insert is issued
before the increment call, and on success the template is then loaded and
the panel collapsed; a thrown failure of either tracking call is caught and
logged without surfacing a user-facing message — but it aborts the handler,
so the template is then not loaded into the canvas. -/
theorem template_tracking_amended (tid uid : String)
    (insertThrows rpcThrows : Bool)
    (h : insertThrows = true ∨ rpcThrows = true) :
    (panelHandleLoadTemplate tid (some uid) false false
      = [PanelEvent.insertTemplateUsage tid uid,
         PanelEvent.rpcIncrementUsage tid,
         PanelEvent.loadTemplateIntoCanvas tid, PanelEvent.collapsePanel])
    ∧ PanelEvent.logError ∈
        panelHandleLoadTemplate tid (some uid) insertThrows rpcThrows
    ∧ PanelEvent.loadTemplateIntoCanvas tid ∉
        panelHandleLoadTemplate tid (some uid) insertThrows rpcThrows := by
  refine ⟨rfl, ?_, ?_⟩ <;>
    rcases h with h | h <;> cases insertThrows <;> cases rpcThrows <;>
      simp_all [panelHandleLoadTemplate]

/-- Witness for the amended C6. -/
theorem template_tracking_amended_witness :
    ((true : Bool) = true ∨ (false : Bool) = true)
    ∧ PanelEvent.logError ∈
        panelHandleLoadTemplate "tpl-1" (some "user-1") true false
    ∧ PanelEvent.loadTemplateIntoCanvas "tpl-1" ∉
        panelHandleLoadTemplate "tpl-1" (some "user-1") true false :=
  ⟨Or.inl rfl,
   (template_tracking_amended "tpl-1" "user-1" true false (Or.inl rfl)).2.1,
   (template_tracking_amended "tpl-1" "user-1" true false (Or.inl rfl)).2.2⟩

/-- C7: the chat history query returns the stored rows for the board and
user ordered ascending by creation time (a permutation of the filtered
table, sorted), and the repository's only mutation on `board_chats` is an
insert, whose effect appends one row and preserves every existing row. -/
theorem chat_append_only_ordered (table : List ChatRow) (bid uidq : String)
    (user : Option String) (boardId : String) (msg : Message) (now : Nat)
    (newId : String) :
    List.Sorted chatOrder (loadChatHistoryQuery table bid uidq)
    ∧ (loadChatHistoryQuery table bid uidq).Perm
        (table.filter fun r => r.board_id == bid && r.user_id == uidq)
    ∧ (∀ m ∈ saveChatMessage user boardId msg,
        ∃ b u t c, m = ChatMutation.insertChat b u t c)
    ∧ (∀ m ∈ saveChatMessage user boardId msg,
        ∃ r, applyChatMutation table now newId m = table ++ [r]) := by
  refine ⟨List.sorted_insertionSort chatOrder _,
    List.perm_insertionSort chatOrder _, ?_, ?_⟩
  · intro m hm
    cases user with
    | none => simp [saveChatMessage] at hm
    | some uid =>
      simp only [saveChatMessage] at hm
      split at hm
      · simp at hm
      · split at hm
        · simp at hm
        · simp only [List.mem_singleton] at hm
          exact ⟨boardId, uid, msg.role, msg.content, hm⟩
  · intro m hm
    cases user with
    | none => simp [saveChatMessage] at hm
    | some uid =>
      simp only [saveChatMessage] at hm
      split at hm
      · simp at hm
      · split at hm
        · simp at hm
        · simp only [List.mem_singleton] at hm
          subst hm
          exact ⟨_, rfl⟩

/-- C8: for every uploaded image file, the object path follows
`<bucket>/<board-id>/<timestamp>-<random>.<ext>` with the extension taken
from the file's name, and the `board_images` row records exactly that path
along with the public URL obtained for it. -/
theorem upload_path_convention (boardId userId : String) (now : Nat)
    (rand : String) (getPublicUrl : String → String) (dims : Nat × Nat)
    (file : UploadedFile) :
    (uploadOneImage boardId userId now rand getPublicUrl dims file).1
      = "board-images/" ++ (boardId ++ "/" ++ toString now ++ "-" ++ rand
        ++ "." ++ fileExtOf file.name)
    ∧ (uploadOneImage boardId userId now rand getPublicUrl dims
        file).2.storage_path
      = (uploadOneImage boardId userId now rand getPublicUrl dims file).1
    ∧ (uploadOneImage boardId userId now rand getPublicUrl dims
        file).2.storage_url
      = getPublicUrl
          (uploadOneImage boardId userId now rand getPublicUrl dims file).1
    ∧ (uploadOneImage boardId userId now rand getPublicUrl dims
        file).2.filename = file.name :=
  ⟨rfl, rfl, rfl, rfl⟩

/-- C9: the template save handler refuses an empty current page or a blank
trimmed name — it issues no insert, sets one of the two refusal error
messages, leaves the modal open and leaves the persistent modal fields
unchanged. -/
theorem template_save_refusal (st : TemplateModalState) (e : EditorState)
    (user : Option String) (insertOk : Bool)
    (h : jsTrim st.name = "" ∨ e.shapes = []) :
    (templateModalHandleSave st (some e) user insertOk).inserts = []
    ∧ (templateModalHandleSave st (some e) user insertOk).closed = false
    ∧ ((templateModalHandleSave st (some e) user insertOk).state.error
          = "Template name is required"
      ∨ (templateModalHandleSave st (some e) user insertOk).state.error
          = "Cannot save empty board as template")
    ∧ (templateModalHandleSave st (some e) user insertOk).state.name
        = st.name
    ∧ (templateModalHandleSave st (some e) user insertOk).state.description
        = st.description
    ∧ (templateModalHandleSave st (some e) user insertOk).state.category
        = st.category
    ∧ (templateModalHandleSave st (some e) user insertOk).state.isPublic
        = st.isPublic := by
  by_cases hn : jsTrim st.name = ""
  · simp [templateModalHandleSave, hn]
  · rcases h with h | h
    · exact absurd h hn
    · simp [templateModalHandleSave, hn, h]

/-- Witness for C9. -/
theorem template_save_refusal_witness :
    (jsTrim "   " = "" ∨
      (⟨⟨0⟩, ⟨0, 0, 0⟩, ⟨0, 0, 0, 0⟩, []⟩ : EditorState).shapes = [])
    ∧ (templateModalHandleSave ⟨"   ", "", "custom", false, false, ""⟩
        (some ⟨⟨0⟩, ⟨0, 0, 0⟩, ⟨0, 0, 0, 0⟩, []⟩) none true).inserts = []
    ∧ (templateModalHandleSave ⟨"   ", "", "custom", false, false, ""⟩
        (some ⟨⟨0⟩, ⟨0, 0, 0⟩, ⟨0, 0, 0, 0⟩, []⟩) none true).closed
        = false :=
  ⟨Or.inl (by decide),
   (template_save_refusal ⟨"   ", "", "custom", false, false, ""⟩
      ⟨⟨0⟩, ⟨0, 0, 0⟩, ⟨0, 0, 0, 0⟩, []⟩ none true (Or.inl (by decide))).1,
   (template_save_refusal ⟨"   ", "", "custom", false, false, ""⟩
      ⟨⟨0⟩, ⟨0, 0, 0⟩, ⟨0, 0, 0, 0⟩, []⟩ none true (Or.inl (by decide))).2.1⟩

/-- C10: the synthetic welcome message (id `welcome`, produced when the
history is empty or its load fails) is never persisted: `saveChatMessage`
emits no mutation for any message with that id, in particular for the
welcome message itself. -/
theorem welcome_message_never_persisted (user : Option String)
    (boardId : String) (msg : Message) (h : msg.id = "welcome") :
    saveChatMessage user boardId msg = []
    ∧ saveChatMessage user boardId welcomeMessage = []
    ∧ loadChatHistory none = [welcomeMessage]
    ∧ loadChatHistory (some []) = [welcomeMessage] := by
  refine ⟨?_, ?_, rfl, rfl⟩ <;>
    cases user <;> simp [saveChatMessage, welcomeMessage, h]

/-- Witness for C10. -/
theorem welcome_message_never_persisted_witness :
    (welcomeMessage.id = "welcome")
    ∧ saveChatMessage (some "user-1") "board-1" welcomeMessage = []
    ∧ loadChatHistory none = [welcomeMessage] :=
  ⟨rfl,
   (welcome_message_never_persisted (some "user-1") "board-1"
      welcomeMessage rfl).2.1,
   (welcome_message_never_persisted (some "user-1") "board-1"
      welcomeMessage rfl).2.2.1⟩

end MentorBoard
